import Mathlib

/-!
Shallow embedding of the warbler Flask application (`app.py`).

The relational store is modelled as explicit lists of rows; each request
handler is a pure function from the database, the client session and the
request parameters to a result holding the new database, the new session,
the flashed messages, the form field errors and the response.

`models.py` and `forms.py` are not part of the sources; the pieces of them
that the handlers rely on (`User.signup`, `User.authenticate`, the
uniqueness constraint, default image URLs, `validate_on_submit`) are
modelled from the spec and marked as such in their doc comments.
-/

namespace Warbler

/-- A row of the `users` table (models.py `User`). -/
structure DBUser where
  id : Nat
  username : String
  email : String
  password : String
  image_url : String
  header_image_url : String
  location : String
  bio : String
deriving DecidableEq, Repr

/-- A row of the `messages` table (models.py `Message`); the timestamp is a
natural-number clock value. -/
structure Msg where
  id : Nat
  text : String
  timestamp : Nat
  user_id : Nat
deriving DecidableEq, Repr

/-- The database: users, messages, follow edges `(follower id, followed id)`,
like edges `(liking user id, liked message id)`, and the id sequences. -/
structure DB where
  users : List DBUser
  messages : List Msg
  follows : List (Nat × Nat)
  likes : List (Nat × Nat)
  next_user_id : Nat
  next_message_id : Nat
deriving DecidableEq, Repr

/-- Response of a handler: `unauthorized` models `raise Unauthorized()`
(401), `notFound` models `get_or_404` failing (404), `redirectTo` a 302 and
`render` a 200 rendering the named template. -/
inductive Resp where
  | unauthorized
  | notFound
  | redirectTo (url : String)
  | render (tmpl : String)
deriving DecidableEq, Repr

/-- Result of one handled request: new database, new client session,
flashed messages, form field errors as (field, message) pairs, response. -/
structure HResult where
  db : DB
  sess : Option Nat
  flashes : List String
  errors : List (String × String)
  resp : Resp
deriving DecidableEq, Repr

/-- `User.query.get` / lookup by primary key. -/
def findUser (db : DB) (uid : Nat) : Option DBUser :=
  db.users.find? (fun u => u.id = uid)

/-- `Message.query.get` / lookup by primary key. -/
def findMsg (db : DB) (mid : Nat) : Option Msg :=
  db.messages.find? (fun m => m.id = mid)

/-- `add_user_to_g`: resolve `g.user` from the session's `curr_user` key;
a stale id (user deleted) resolves to `none`, as `User.query.get` returns
`None`. -/
def gUser (db : DB) (sess : Option Nat) : Option DBUser :=
  match sess with
  | some uid => findUser db uid
  | none => none

/-- Modelled from the spec (§4.1): the one-way password hash of models.py,
treated as an opaque injective encoding. -/
def hashPw (p : String) : String := "bcrypt$" ++ p

/-- Modelled from the spec (§3, defaults for absent image fields):
`User.image_url.default.arg` of models.py. -/
def DEFAULT_IMAGE_URL : String := "/static/images/default-pic.png"

/-- Modelled from the spec (§3): `User.header_image_url.default.arg` of
models.py. -/
def DEFAULT_HEADER_IMAGE_URL : String := "/static/images/warbler-hero.jpg"

/-- Modelled from the spec (§4.1): `User.authenticate` of models.py looks
up by exact username and verifies the password against the stored hash,
returning `none` on any mismatch. -/
def authenticate (db : DB) (username password : String) : Option DBUser :=
  match db.users.find? (fun u => u.username = username) with
  | some u => if u.password = hashPw password then some u else none
  | none => none

/-- Modelled from the spec (§4.1): `User.signup` of models.py inserts a row
with the hashed password; the uniqueness constraint on username and email
is detected at commit time and surfaces as an `IntegrityError`, modelled as
`Except.error`. -/
def signupCommit (db : DB) (username password email image_url : String) :
    Except Unit (DB × DBUser) :=
  if db.users.any (fun u => u.username = username || u.email = email) then
    .error ()
  else
    let u : DBUser :=
      { id := db.next_user_id, username := username, email := email,
        password := hashPw password, image_url := image_url,
        header_image_url := DEFAULT_HEADER_IMAGE_URL, location := "", bio := "" }
    .ok ({ db with users := db.users ++ [u], next_user_id := db.next_user_id + 1 }, u)

/-- Modelled from the spec (§6, external form layer): `FlaskForm
.validate_on_submit` returns true only when the request's anti-forgery
token is valid and the form fields validate; on failure it returns false
(it does not raise). -/
def validate_on_submit (csrf_ok fields_ok : Bool) : Bool :=
  csrf_ok && fields_ok

/-- Data of `UserAddForm`; an empty string models an absent (falsy) optional
field. -/
structure SignupForm where
  username : String
  password : String
  email : String
  image_url : String
deriving DecidableEq, Repr

/-- Data of `UserEditForm`. -/
structure EditForm where
  username : String
  email : String
  image_url : String
  header_image_url : String
  location : String
  bio : String
  password : String
deriving DecidableEq, Repr

/-- `GET/POST /signup` (app.py `signup`): `do_logout()` first, then on a
validated submission try `User.signup` + commit; an `IntegrityError` flashes
and re-renders the form; success logs the new user in and redirects home. -/
def signup (db : DB) (_sess : Option Nat) (csrf_ok fields_ok : Bool)
    (form : SignupForm) : HResult :=
  -- do_logout() runs first: every result below carries a cleared session
  -- (except the successful branch, where do_login sets the new user's id)
  if validate_on_submit csrf_ok fields_ok then
    match signupCommit db form.username form.password form.email
        (if form.image_url = "" then DEFAULT_IMAGE_URL else form.image_url) with
    | .error _ =>
      { db := db, sess := none,
        flashes := ["Username or email already taken"], errors := [],
        resp := .render "users/signup.html" }
    | .ok (db', u) =>
      { db := db', sess := some u.id, flashes := [], errors := [],
        resp := .redirectTo "/" }
  else
    { db := db, sess := none, flashes := [], errors := [],
      resp := .render "users/signup.html" }

/-- `GET/POST /login` (app.py `login`). -/
def login (db : DB) (sess : Option Nat) (csrf_ok fields_ok : Bool)
    (username password : String) : HResult :=
  if validate_on_submit csrf_ok fields_ok then
    match authenticate db username password with
    | some u =>
      { db := db, sess := some u.id,
        flashes := ["Hello, " ++ u.username ++ "!"], errors := [],
        resp := .redirectTo "/" }
    | none =>
      { db := db, sess := sess, flashes := ["Invalid credentials."],
        errors := [], resp := .render "users/login.html" }
  else
    { db := db, sess := sess, flashes := [], errors := [],
      resp := .render "users/login.html" }

/-- `POST /logout` (app.py `logout`): `not form.validate_on_submit() or not
g.user` raises `Unauthorized`. -/
def logout (db : DB) (sess : Option Nat) (csrf_ok : Bool) : HResult :=
  if !csrf_ok || (gUser db sess).isNone then
    { db := db, sess := sess, flashes := [], errors := [], resp := .unauthorized }
  else
    { db := db, sess := none, flashes := ["User logged out!"], errors := [],
      resp := .redirectTo "/" }

/-- `GET /users` (app.py `list_users`); the user listing itself is template
data fed to the external renderer. -/
def list_users (db : DB) (sess : Option Nat) (q : Option String) : HResult :=
  match gUser db sess with
  | none =>
    { db := db, sess := sess, flashes := ["Access unauthorized."],
      errors := [], resp := .redirectTo "/" }
  | some _ =>
    let _ := q
    { db := db, sess := sess, flashes := [], errors := [],
      resp := .render "users/index.html" }

/-- `GET /users/<user_id>` (app.py `show_user`). -/
def show_user (db : DB) (sess : Option Nat) (user_id : Nat) : HResult :=
  match gUser db sess with
  | none =>
    { db := db, sess := sess, flashes := ["Access unauthorized."],
      errors := [], resp := .redirectTo "/" }
  | some _ =>
    match findUser db user_id with
    | none => { db := db, sess := sess, flashes := [], errors := [], resp := .notFound }
    | some _ =>
      { db := db, sess := sess, flashes := [], errors := [],
        resp := .render "users/show.html" }

/-- `GET /users/<user_id>/following` (app.py `show_following`). -/
def show_following (db : DB) (sess : Option Nat) (user_id : Nat) : HResult :=
  match gUser db sess with
  | none =>
    { db := db, sess := sess, flashes := ["Access unauthorized."],
      errors := [], resp := .redirectTo "/" }
  | some _ =>
    match findUser db user_id with
    | none => { db := db, sess := sess, flashes := [], errors := [], resp := .notFound }
    | some _ =>
      { db := db, sess := sess, flashes := [], errors := [],
        resp := .render "users/following.html" }

/-- `GET /users/<user_id>/followers` (app.py `show_followers`). -/
def show_followers (db : DB) (sess : Option Nat) (user_id : Nat) : HResult :=
  match gUser db sess with
  | none =>
    { db := db, sess := sess, flashes := ["Access unauthorized."],
      errors := [], resp := .redirectTo "/" }
  | some _ =>
    match findUser db user_id with
    | none => { db := db, sess := sess, flashes := [], errors := [], resp := .notFound }
    | some _ =>
      { db := db, sess := sess, flashes := [], errors := [],
        resp := .render "users/followers.html" }

/-- `GET /users/<user_id>/messages/liked` (app.py `show_liked_messages`);
the liked-message listing is template data fed to the external renderer. -/
def show_liked_messages (db : DB) (sess : Option Nat) (user_id : Nat) : HResult :=
  match gUser db sess with
  | none =>
    { db := db, sess := sess, flashes := ["Access unauthorized."],
      errors := [], resp := .redirectTo "/" }
  | some _ =>
    match findUser db user_id with
    | none => { db := db, sess := sess, flashes := [], errors := [], resp := .notFound }
    | some _ =>
      { db := db, sess := sess, flashes := [], errors := [],
        resp := .render "/users/liked.html" }

/-- `POST /users/follow/<follow_id>` (app.py `start_following`): the source
raises `Unauthorized` on `not form.validate_on_submit() or not g.user`;
then `get_or_404`, the self-follow guard (flash only), and the duplicate
guard before appending the edge. -/
def start_following (db : DB) (sess : Option Nat) (csrf_ok : Bool)
    (follow_id : Nat) : HResult :=
  match gUser db sess with
  | none =>
    { db := db, sess := sess, flashes := [], errors := [], resp := .unauthorized }
  | some u =>
    if !csrf_ok then
      { db := db, sess := sess, flashes := [], errors := [], resp := .unauthorized }
    else
      match findUser db follow_id with
      | none => { db := db, sess := sess, flashes := [], errors := [], resp := .notFound }
      | some _ =>
        if u.id = follow_id then
          { db := db, sess := sess, flashes := ["You cannot follow yourself!"],
            errors := [],
            resp := .redirectTo ("/users/" ++ toString u.id ++ "/following") }
        else if (u.id, follow_id) ∈ db.follows then
          { db := db, sess := sess, flashes := [], errors := [],
            resp := .redirectTo ("/users/" ++ toString u.id ++ "/following") }
        else
          { db := { db with follows := db.follows ++ [(u.id, follow_id)] },
            sess := sess, flashes := [], errors := [],
            resp := .redirectTo ("/users/" ++ toString u.id ++ "/following") }

/-- `POST /users/stop-following/<follow_id>` (app.py `stop_following`). -/
def stop_following (db : DB) (sess : Option Nat) (csrf_ok : Bool)
    (follow_id : Nat) : HResult :=
  match gUser db sess with
  | none =>
    { db := db, sess := sess, flashes := [], errors := [], resp := .unauthorized }
  | some u =>
    if !csrf_ok then
      { db := db, sess := sess, flashes := [], errors := [], resp := .unauthorized }
    else
      match findUser db follow_id with
      | none => { db := db, sess := sess, flashes := [], errors := [], resp := .notFound }
      | some _ =>
        if (u.id, follow_id) ∈ db.follows then
          { db := { db with follows := db.follows.erase (u.id, follow_id) },
            sess := sess, flashes := [], errors := [],
            resp := .redirectTo ("/users/" ++ toString u.id ++ "/following") }
        else
          { db := db, sess := sess, flashes := [], errors := [],
            resp := .redirectTo ("/users/" ++ toString u.id ++ "/following") }

/-- `GET/POST /users/profile` (app.py `update_profile`): re-authenticate
with the supplied current password; wrong password sets a password field
error; a changed username or email colliding with an existing row sets the
corresponding field error(s); otherwise all fields are applied and
committed. -/
def update_profile (db : DB) (sess : Option Nat) (csrf_ok fields_ok : Bool)
    (form : EditForm) : HResult :=
  match gUser db sess with
  | none =>
    { db := db, sess := sess, flashes := [], errors := [], resp := .unauthorized }
  | some gu =>
    if validate_on_submit csrf_ok fields_ok then
      match authenticate db gu.username form.password with
      | some user =>
        let username_check : Bool := (user.username != form.username) &&
          db.users.any (fun o => o.username = form.username)
        let email_check : Bool := (user.email != form.email) &&
          db.users.any (fun o => o.email = form.email)
        if username_check || email_check then
          { db := db, sess := sess, flashes := [],
            errors :=
              (if username_check then [("username", "Username already taken!")] else []) ++
              (if email_check then [("email", "Email already taken!")] else []),
            resp := .render "/users/edit.html" }
        else
          let user' : DBUser :=
            { user with
              username := form.username,
              email := form.email,
              location := form.location,
              bio := form.bio,
              image_url :=
                if form.image_url = "" then DEFAULT_IMAGE_URL else form.image_url,
              header_image_url :=
                if form.header_image_url = "" then DEFAULT_HEADER_IMAGE_URL
                else form.header_image_url }
          { db := { db with
              users := db.users.map (fun o => if o.id = user.id then user' else o) },
            sess := sess, flashes := ["Updated " ++ form.username ++ "!"],
            errors := [], resp := .redirectTo ("/users/" ++ toString gu.id) }
      | none =>
        { db := db, sess := sess, flashes := [],
          errors := [("password", "Incorrect password.")],
          resp := .render "/users/edit.html" }
    else
      { db := db, sess := sess, flashes := [], errors := [],
        resp := .render "/users/edit.html" }

/-- `POST /users/delete` (app.py `delete_user`): `do_logout()`, delete each
of the user's messages, delete the user, one commit, redirect to /signup. -/
def delete_user (db : DB) (sess : Option Nat) (csrf_ok : Bool) : HResult :=
  match gUser db sess with
  | none =>
    { db := db, sess := sess, flashes := [], errors := [], resp := .unauthorized }
  | some u =>
    if !csrf_ok then
      { db := db, sess := sess, flashes := [], errors := [], resp := .unauthorized }
    else
      { db := { db with
          messages := db.messages.filter (fun m => m.user_id ≠ u.id),
          users := db.users.filter (fun o => o.id ≠ u.id) },
        sess := none, flashes := ["Deleted " ++ u.username ++ "!"],
        errors := [], resp := .redirectTo "/signup" }

/-- `GET/POST /messages/new` (app.py `add_message`): unauthenticated
requests raise `Unauthorized`; a validated submission appends a fresh
message owned by `g.user` with the current clock value as timestamp. -/
def add_message (db : DB) (sess : Option Nat) (csrf_ok fields_ok : Bool)
    (text : String) (now : Nat) : HResult :=
  match gUser db sess with
  | none =>
    { db := db, sess := sess, flashes := [], errors := [], resp := .unauthorized }
  | some u =>
    if validate_on_submit csrf_ok fields_ok then
      let m : Msg :=
        { id := db.next_message_id, text := text, timestamp := now, user_id := u.id }
      { db := { db with
          messages := db.messages ++ [m],
          next_message_id := db.next_message_id + 1 },
        sess := sess, flashes := [], errors := [],
        resp := .redirectTo ("/users/" ++ toString u.id) }
    else
      { db := db, sess := sess, flashes := [], errors := [],
        resp := .render "messages/create.html" }

/-- `GET /messages/<message_id>` (app.py `show_message`). -/
def show_message (db : DB) (sess : Option Nat) (message_id : Nat) : HResult :=
  match gUser db sess with
  | none =>
    { db := db, sess := sess, flashes := ["Access unauthorized."],
      errors := [], resp := .redirectTo "/" }
  | some _ =>
    match findMsg db message_id with
    | none => { db := db, sess := sess, flashes := [], errors := [], resp := .notFound }
    | some _ =>
      { db := db, sess := sess, flashes := [], errors := [],
        resp := .render "messages/show.html" }

/-- `POST /messages/<message_id>/delete` (app.py `delete_message`):
ownership is required on top of authentication and a valid token. -/
def delete_message (db : DB) (sess : Option Nat) (csrf_ok : Bool)
    (message_id : Nat) : HResult :=
  match gUser db sess with
  | none =>
    { db := db, sess := sess, flashes := [], errors := [], resp := .unauthorized }
  | some u =>
    if !csrf_ok then
      { db := db, sess := sess, flashes := [], errors := [], resp := .unauthorized }
    else
      match findMsg db message_id with
      | none => { db := db, sess := sess, flashes := [], errors := [], resp := .notFound }
      | some m =>
        if m.user_id ≠ u.id then
          { db := db, sess := sess, flashes := [], errors := [], resp := .unauthorized }
        else
          { db := { db with messages := db.messages.filter (fun x => x.id ≠ m.id) },
            sess := sess, flashes := [], errors := [],
            resp := .redirectTo ("/users/" ++ toString u.id) }

/-- `POST /messages/<message_id>/like` (app.py `like_message`): the
own-message guard only flashes; otherwise the duplicate guard precedes the
append; the redirect honours the optional `referring_page` form field. -/
def like_message (db : DB) (sess : Option Nat) (csrf_ok : Bool)
    (message_id : Nat) (referring_page : Option String) : HResult :=
  match gUser db sess with
  | none =>
    { db := db, sess := sess, flashes := [], errors := [], resp := .unauthorized }
  | some u =>
    if !csrf_ok then
      { db := db, sess := sess, flashes := [], errors := [], resp := .unauthorized }
    else
      match findMsg db message_id with
      | none => { db := db, sess := sess, flashes := [], errors := [], resp := .notFound }
      | some m =>
        if u.id = m.user_id then
          { db := db, sess := sess, flashes := ["You cannot like your own Warble!"],
            errors := [],
            resp := .redirectTo
              (referring_page.getD ("/messages/" ++ toString message_id)) }
        else if (u.id, message_id) ∈ db.likes then
          { db := db, sess := sess, flashes := [], errors := [],
            resp := .redirectTo
              (referring_page.getD ("/messages/" ++ toString message_id)) }
        else
          { db := { db with likes := db.likes ++ [(u.id, message_id)] },
            sess := sess, flashes := [], errors := [],
            resp := .redirectTo
              (referring_page.getD ("/messages/" ++ toString message_id)) }

/-- `POST /messages/<message_id>/unlike` (app.py `unlike_message`). -/
def unlike_message (db : DB) (sess : Option Nat) (csrf_ok : Bool)
    (message_id : Nat) (referring_page : Option String) : HResult :=
  match gUser db sess with
  | none =>
    { db := db, sess := sess, flashes := [], errors := [], resp := .unauthorized }
  | some u =>
    if !csrf_ok then
      { db := db, sess := sess, flashes := [], errors := [], resp := .unauthorized }
    else
      match findMsg db message_id with
      | none => { db := db, sess := sess, flashes := [], errors := [], resp := .notFound }
      | some _ =>
        if (u.id, message_id) ∈ db.likes then
          { db := { db with likes := db.likes.erase (u.id, message_id) },
            sess := sess, flashes := [], errors := [],
            resp := .redirectTo
              (referring_page.getD ("/messages/" ++ toString message_id)) }
        else
          { db := db, sess := sess, flashes := [], errors := [],
            resp := .redirectTo
              (referring_page.getD ("/messages/" ++ toString message_id)) }

/-- Stable insertion (descending timestamp) used to model
`order_by(Message.timestamp.desc())`: the SQL specifies no tie-break, so
ties keep the table's insertion order. -/
def insertByTs (m : Msg) : List Msg → List Msg
  | [] => [m]
  | x :: xs => if x.timestamp ≤ m.timestamp then m :: x :: xs else x :: insertByTs m xs

/-- Stable sort by descending timestamp. -/
def order_by_timestamp_desc : List Msg → List Msg
  | [] => []
  | x :: xs => insertByTs x (order_by_timestamp_desc xs)

/-- Ids of the users `u` follows (`g.user.following`). -/
def followingIds (db : DB) (u : DBUser) : List Nat :=
  (db.follows.filter (fun p => p.1 = u.id)).map (fun p => p.2)

/-- The feed query of `GET /` for a logged-in user (app.py `homepage`):
messages whose owner is the viewer or followed by the viewer, ordered by
descending timestamp, capped at 100. -/
def homepage_messages (db : DB) (u : DBUser) : List Msg :=
  let user_ids_to_show := followingIds db u ++ [u.id]
  (order_by_timestamp_desc
    (db.messages.filter (fun m => m.user_id ∈ user_ids_to_show))).take 100

/-- `GET /` (app.py `homepage`): `some feed` models rendering `home.html`
with the query's result; `none` models the anonymous branch, which runs no
query and renders `home-anon.html`. -/
def homepage (db : DB) (sess : Option Nat) : Option (List Msg) :=
  match gUser db sess with
  | some u => some (homepage_messages db u)
  | none => none

/-- One incoming request: the client's session and anti-forgery token
validity, the route parameters, and for form routes the validity of the
non-CSRF form fields. The clock value `now` stands for `datetime.utcnow`
at message creation. -/
inductive Request where
  | signupReq (sess : Option Nat) (csrf_ok fields_ok : Bool) (form : SignupForm)
  | loginReq (sess : Option Nat) (csrf_ok fields_ok : Bool) (username password : String)
  | logoutReq (sess : Option Nat) (csrf_ok : Bool)
  | listUsersReq (sess : Option Nat) (q : Option String)
  | showUserReq (sess : Option Nat) (user_id : Nat)
  | showFollowingReq (sess : Option Nat) (user_id : Nat)
  | showFollowersReq (sess : Option Nat) (user_id : Nat)
  | showLikedReq (sess : Option Nat) (user_id : Nat)
  | followReq (sess : Option Nat) (csrf_ok : Bool) (follow_id : Nat)
  | stopFollowReq (sess : Option Nat) (csrf_ok : Bool) (follow_id : Nat)
  | profileReq (sess : Option Nat) (csrf_ok fields_ok : Bool) (form : EditForm)
  | deleteUserReq (sess : Option Nat) (csrf_ok : Bool)
  | addMessageReq (sess : Option Nat) (csrf_ok fields_ok : Bool) (text : String) (now : Nat)
  | showMessageReq (sess : Option Nat) (message_id : Nat)
  | deleteMessageReq (sess : Option Nat) (csrf_ok : Bool) (message_id : Nat)
  | likeReq (sess : Option Nat) (csrf_ok : Bool) (message_id : Nat) (referring_page : Option String)
  | unlikeReq (sess : Option Nat) (csrf_ok : Bool) (message_id : Nat) (referring_page : Option String)
deriving DecidableEq, Repr

/-- Dispatch of one request to its handler. `GET /` runs no mutation and is
covered by `homepage` directly. -/
def handle (db : DB) : Request → HResult
  | .signupReq sess c f form => signup db sess c f form
  | .loginReq sess c f un pw => login db sess c f un pw
  | .logoutReq sess c => logout db sess c
  | .listUsersReq sess q => list_users db sess q
  | .showUserReq sess uid => show_user db sess uid
  | .showFollowingReq sess uid => show_following db sess uid
  | .showFollowersReq sess uid => show_followers db sess uid
  | .showLikedReq sess uid => show_liked_messages db sess uid
  | .followReq sess c fid => start_following db sess c fid
  | .stopFollowReq sess c fid => stop_following db sess c fid
  | .profileReq sess c f form => update_profile db sess c f form
  | .deleteUserReq sess c => delete_user db sess c
  | .addMessageReq sess c f text now => add_message db sess c f text now
  | .showMessageReq sess mid => show_message db sess mid
  | .deleteMessageReq sess c mid => delete_message db sess c mid
  | .likeReq sess c mid rp => like_message db sess c mid rp
  | .unlikeReq sess c mid rp => unlike_message db sess c mid rp

/-- Database transition of one handled request. -/
def step (db : DB) (r : Request) : DB := (handle db r).db

/-- Database after a sequence of requests. -/
def exec (db : DB) (reqs : List Request) : DB := reqs.foldl step db

/-- The empty initial database. -/
def initDB : DB :=
  { users := [], messages := [], follows := [], likes := [],
    next_user_id := 1, next_message_id := 1 }

/-- No like edge is held by the owner of the liked message. -/
def NoSelfLike (db : DB) : Prop :=
  ∀ p ∈ db.likes, ∀ m ∈ db.messages, m.id = p.2 → m.user_id ≠ p.1

/-- Bookkeeping invariants of the message id sequence: all message ids and
all liked message ids are below the sequence value, and message ids are
distinct. -/
def MsgIdsOk (db : DB) : Prop :=
  (∀ m ∈ db.messages, m.id < db.next_message_id) ∧
  (∀ p ∈ db.likes, p.2 < db.next_message_id) ∧
  (db.messages.map Msg.id).Nodup

/-- The inductive invariant of the transition system. -/
def GoodDB (db : DB) : Prop := MsgIdsOk db ∧ NoSelfLike db

/-- Example user for the feed theorems. -/
def exU1 : DBUser :=
  { id := 1, username := "alice", email := "alice@mail", password := hashPw "pw",
    image_url := "i", header_image_url := "h", location := "", bio := "" }

/-- Example message owned by `exU1`. -/
def exM1 : Msg := { id := 1, text := "first", timestamp := 5, user_id := 1 }

/-- Second example message owned by `exU1`, same timestamp, larger id. -/
def exM2 : Msg := { id := 2, text := "second", timestamp := 5, user_id := 1 }

/-- Example database with one user and two equal-timestamp messages. -/
def exDB1 : DB :=
  { users := [exU1], messages := [exM1, exM2], follows := [], likes := [],
    next_user_id := 2, next_message_id := 3 }

theorem insertByTs_perm (m : Msg) (l : List Msg) :
    List.Perm (insertByTs m l) (m :: l) := by
  induction l with
  | nil => simp [insertByTs]
  | cons x xs ih =>
    by_cases h : x.timestamp ≤ m.timestamp
    · simp [insertByTs, h]
    · simp only [insertByTs, if_neg h]
      exact (List.Perm.cons x ih).trans (List.Perm.swap m x xs)

theorem insertByTs_pairwise (m : Msg) (l : List Msg)
    (h : l.Pairwise (fun a b => b.timestamp ≤ a.timestamp)) :
    (insertByTs m l).Pairwise (fun a b => b.timestamp ≤ a.timestamp) := by
  induction l with
  | nil => simp [insertByTs]
  | cons x xs ih =>
    rcases List.pairwise_cons.mp h with ⟨hx, hxs⟩
    by_cases hc : x.timestamp ≤ m.timestamp
    · simp only [insertByTs, if_pos hc]
      refine List.pairwise_cons.mpr ⟨?_, h⟩
      intro b hb
      rcases List.mem_cons.mp hb with rfl | hb
      · exact hc
      · exact le_trans (hx b hb) hc
    · simp only [insertByTs, if_neg hc]
      refine List.pairwise_cons.mpr ⟨?_, ih hxs⟩
      intro b hb
      rcases List.mem_cons.mp ((insertByTs_perm m xs).mem_iff.mp hb) with rfl | hb
      · exact le_of_lt (lt_of_not_le hc)
      · exact hx b hb

theorem order_by_perm (l : List Msg) :
    List.Perm (order_by_timestamp_desc l) l := by
  induction l with
  | nil => simp [order_by_timestamp_desc]
  | cons x xs ih =>
    exact (insertByTs_perm x (order_by_timestamp_desc xs)).trans (List.Perm.cons x ih)

theorem order_by_pairwise (l : List Msg) :
    (order_by_timestamp_desc l).Pairwise (fun a b => b.timestamp ≤ a.timestamp) := by
  induction l with
  | nil => simp [order_by_timestamp_desc]
  | cons x xs ih => exact insertByTs_pairwise x (order_by_timestamp_desc xs) ih

/-- C1 (amended): for a logged-in viewer the homepage feed contains only
messages owned by the viewer or by a user the viewer follows, ordered by
descending creation timestamp, with at most 100 messages, and contains all
such messages when they number at most 100; ties in timestamp come back in
table insertion order (the query has no tie-break), not id-descending; an
anonymous viewer receives no feed (no query executed). -/
theorem C1_feed_correct :
    (∀ (db : DB) (sess : Option Nat), gUser db sess = none → homepage db sess = none) ∧
    (∀ (db : DB) (sess : Option Nat) (u : DBUser), gUser db sess = some u →
      homepage db sess = some (homepage_messages db u) ∧
      (homepage_messages db u).length ≤ 100 ∧
      (homepage_messages db u).Pairwise (fun a b => b.timestamp ≤ a.timestamp) ∧
      (∀ m ∈ homepage_messages db u,
        m ∈ db.messages ∧ (m.user_id ∈ followingIds db u ∨ m.user_id = u.id)) ∧
      ((db.messages.filter
          (fun m => m.user_id ∈ followingIds db u ++ [u.id])).length ≤ 100 →
        ∀ m ∈ db.messages, (m.user_id ∈ followingIds db u ∨ m.user_id = u.id) →
          m ∈ homepage_messages db u)) := by
  constructor
  · intro db sess h
    simp [homepage, h]
  · intro db sess u h
    refine ⟨by simp [homepage, h], ?_, ?_, ?_, ?_⟩
    · simp [homepage_messages]
    · exact List.Pairwise.sublist
        (List.take_sublist 100 _)
        (order_by_pairwise
          (db.messages.filter (fun m => m.user_id ∈ followingIds db u ++ [u.id])))
    · intro m hm
      have hm' : m ∈ order_by_timestamp_desc
          (db.messages.filter (fun m => m.user_id ∈ followingIds db u ++ [u.id])) :=
        (List.take_sublist 100 _).subset hm
      have hm'' := (order_by_perm _).mem_iff.mp hm'
      have := List.mem_filter.mp hm''
      refine ⟨this.1, ?_⟩
      have hmem := of_decide_eq_true this.2
      simpa [List.mem_append] using hmem
    · intro hlen m hm hel
      have hfil : m ∈ db.messages.filter
          (fun m => m.user_id ∈ followingIds db u ++ [u.id]) := by
        refine List.mem_filter.mpr ⟨hm, ?_⟩
        refine decide_eq_true ?_
        simpa [List.mem_append] using hel
      have hsorted : m ∈ order_by_timestamp_desc
          (db.messages.filter (fun m => m.user_id ∈ followingIds db u ++ [u.id])) :=
        (order_by_perm _).mem_iff.mpr hfil
      have hlen' : (order_by_timestamp_desc
          (db.messages.filter
            (fun m => m.user_id ∈ followingIds db u ++ [u.id]))).length ≤ 100 := by
        rwa [(order_by_perm _).length_eq]
      show m ∈ (order_by_timestamp_desc
          (db.messages.filter
            (fun m => m.user_id ∈ followingIds db u ++ [u.id]))).take 100
      rw [List.take_of_length_le hlen']
      exact hsorted

/-- Witness for C1 at a concrete database. -/
theorem C1_feed_correct_witness :
    homepage exDB1 none = none ∧
    homepage exDB1 (some 1) = some (homepage_messages exDB1 exU1) :=
  ⟨C1_feed_correct.1 exDB1 none rfl,
   (C1_feed_correct.2 exDB1 (some 1) exU1 (by decide)).1⟩

/-- Counterexample to C1 as stated: two messages with equal timestamps are
returned with ids ascending (insertion order), not id-descending. -/
theorem C1_tie_counterexample :
    homepage exDB1 (some 1) = some [exM1, exM2] ∧
    exM1.timestamp = exM2.timestamp ∧ ¬ exM2.id ≤ exM1.id := by
  refine ⟨?_, by decide, by decide⟩
  decide

theorem gUser_findUser {db : DB} {sess : Option Nat} {u : DBUser}
    (h : gUser db sess = some u) : findUser db u.id = some u := by
  match sess with
  | none => simp [gUser] at h
  | some uid =>
    simp only [gUser, findUser] at h
    have hp := List.find?_some h
    have hid : u.id = uid := of_decide_eq_true hp
    rw [findUser, hid]
    exact h

/-- C2 (amended): an authenticated user's self-follow attempt, and a like
attempt on their own message, are rejected with a flashed warning and a
redirect — not with an Unauthorized error — and create no edge. -/
theorem C2_self_violation_flash :
    (∀ (db : DB) (sess : Option Nat) (u : DBUser), gUser db sess = some u →
      start_following db sess true u.id =
        { db := db, sess := sess, flashes := ["You cannot follow yourself!"],
          errors := [],
          resp := .redirectTo ("/users/" ++ toString u.id ++ "/following") }) ∧
    (∀ (db : DB) (sess : Option Nat) (u : DBUser) (m : Msg) (mid : Nat)
        (rp : Option String),
      gUser db sess = some u → findMsg db mid = some m → m.user_id = u.id →
      like_message db sess true mid rp =
        { db := db, sess := sess, flashes := ["You cannot like your own Warble!"],
          errors := [],
          resp := .redirectTo (rp.getD ("/messages/" ++ toString mid)) }) := by
  constructor
  · intro db sess u hu
    simp [start_following, hu, gUser_findUser hu]
  · intro db sess u m mid rp hu hm hown
    simp [like_message, hu, hm, hown]

/-- Witness for C2's amended theorem at a concrete database. -/
theorem C2_self_violation_flash_witness :
    (start_following exDB1 (some 1) true exU1.id =
      { db := exDB1, sess := some 1, flashes := ["You cannot follow yourself!"],
        errors := [],
        resp := .redirectTo ("/users/" ++ toString exU1.id ++ "/following") }) ∧
    (like_message exDB1 (some 1) true 1 none =
      { db := exDB1, sess := some 1, flashes := ["You cannot like your own Warble!"],
        errors := [],
        resp := .redirectTo ((none : Option String).getD
          ("/messages/" ++ toString (1 : Nat))) }) :=
  ⟨C2_self_violation_flash.1 exDB1 (some 1) exU1 rfl,
   C2_self_violation_flash.2 exDB1 (some 1) exU1 exM1 1 none rfl rfl rfl⟩

/-- Counterexample to C2 as stated: self-follow and own-message like do not
yield an Unauthorized error (they redirect with a flash). -/
theorem C2_counterexample :
    (start_following exDB1 (some 1) true 1).resp ≠ Resp.unauthorized ∧
    (like_message exDB1 (some 1) true 1 none).resp ≠ Resp.unauthorized ∧
    (start_following exDB1 (some 1) true 1).db = exDB1 ∧
    (like_message exDB1 (some 1) true 1 none).db = exDB1 := by
  decide

/-- Signup form colliding with `exU1`'s username. -/
def exForm3 : SignupForm :=
  { username := "alice", password := "x", email := "new@mail", image_url := "" }

/-- C3: a signup whose username or email is already taken fails at commit
time with the duplicate flash, re-renders the form, and leaves the whole
database (in particular the user table) unchanged. -/
theorem C3_duplicate_signup :
    ∀ (db : DB) (sess : Option Nat) (form : SignupForm),
      (db.users.any (fun u => u.username = form.username || u.email = form.email)) = true →
      signup db sess true true form =
        { db := db, sess := none, flashes := ["Username or email already taken"],
          errors := [], resp := .render "users/signup.html" } := by
  intro db sess form h
  simp [signup, validate_on_submit, signupCommit, h]

/-- Witness for C3: signing up with the taken username "alice". -/
theorem C3_duplicate_signup_witness :
    signup exDB1 (some 1) true true exForm3 =
      { db := exDB1, sess := none, flashes := ["Username or email already taken"],
        errors := [], resp := .render "users/signup.html" } :=
  C3_duplicate_signup exDB1 (some 1) exForm3 (by decide)

/-- Second example user. -/
def exU2 : DBUser :=
  { id := 2, username := "bob", email := "bob@mail", password := hashPw "pw2",
    image_url := "i", header_image_url := "h", location := "", bio := "" }

/-- A message owned by `exU2`. -/
def exM3 : Msg := { id := 3, text := "from bob", timestamp := 7, user_id := 2 }

/-- Example database with two users and one message, no edges. -/
def exDB2 : DB :=
  { users := [exU1, exU2], messages := [exM3], follows := [], likes := [],
    next_user_id := 3, next_message_id := 4 }

/-- C4: adding a follow (like) twice yields exactly one edge with no error,
and removing an absent follow (like) is a no-op, not an error. -/
theorem C4_idempotent_edges :
    (∀ (db : DB) (sess : Option Nat) (u v : DBUser) (fid : Nat),
      gUser db sess = some u → findUser db fid = some v → u.id ≠ fid →
      db.follows.count (u.id, fid) ≤ 1 →
      (start_following db sess true fid).db.follows.count (u.id, fid) = 1 ∧
      start_following (start_following db sess true fid).db sess true fid =
        { db := (start_following db sess true fid).db, sess := sess,
          flashes := [], errors := [],
          resp := .redirectTo ("/users/" ++ toString u.id ++ "/following") }) ∧
    (∀ (db : DB) (sess : Option Nat) (u : DBUser) (m : Msg) (mid : Nat)
        (rp : Option String),
      gUser db sess = some u → findMsg db mid = some m → u.id ≠ m.user_id →
      db.likes.count (u.id, mid) ≤ 1 →
      (like_message db sess true mid rp).db.likes.count (u.id, mid) = 1 ∧
      like_message (like_message db sess true mid rp).db sess true mid rp =
        { db := (like_message db sess true mid rp).db, sess := sess,
          flashes := [], errors := [],
          resp := .redirectTo (rp.getD ("/messages/" ++ toString mid)) }) ∧
    (∀ (db : DB) (sess : Option Nat) (u v : DBUser) (fid : Nat),
      gUser db sess = some u → findUser db fid = some v →
      (u.id, fid) ∉ db.follows →
      stop_following db sess true fid =
        { db := db, sess := sess, flashes := [], errors := [],
          resp := .redirectTo ("/users/" ++ toString u.id ++ "/following") }) ∧
    (∀ (db : DB) (sess : Option Nat) (u : DBUser) (m : Msg) (mid : Nat)
        (rp : Option String),
      gUser db sess = some u → findMsg db mid = some m →
      (u.id, mid) ∉ db.likes →
      unlike_message db sess true mid rp =
        { db := db, sess := sess, flashes := [], errors := [],
          resp := .redirectTo (rp.getD ("/messages/" ++ toString mid)) }) := by
  refine ⟨?_, ?_, ?_, ?_⟩
  · intro db sess u v fid hu hv hne hc
    by_cases hmem : (u.id, fid) ∈ db.follows
    · have h1 : start_following db sess true fid =
          { db := db, sess := sess, flashes := [], errors := [],
            resp := .redirectTo ("/users/" ++ toString u.id ++ "/following") } := by
        simp [start_following, hu, hv, hne, hmem]
      rw [h1]
      refine ⟨?_, h1⟩
      show db.follows.count (u.id, fid) = 1
      have hpos : 0 < db.follows.count (u.id, fid) := List.count_pos_iff.mpr hmem
      omega
    · have h1 : start_following db sess true fid =
          { db := { db with follows := db.follows ++ [(u.id, fid)] }, sess := sess,
            flashes := [], errors := [],
            resp := .redirectTo ("/users/" ++ toString u.id ++ "/following") } := by
        simp [start_following, hu, hv, hne, hmem]
      rw [h1]
      constructor
      · show (db.follows ++ [(u.id, fid)]).count (u.id, fid) = 1
        have hz : db.follows.count (u.id, fid) = 0 := List.count_eq_zero.mpr hmem
        simp [List.count_append, hz]
      · have hu' : gUser { db with follows := db.follows ++ [(u.id, fid)] } sess =
            some u := hu
        have hv' : findUser { db with follows := db.follows ++ [(u.id, fid)] } fid =
            some v := hv
        have hmem' : (u.id, fid) ∈
            ({ db with follows := db.follows ++ [(u.id, fid)] }).follows := by simp
        simp [start_following, hu', hv', hne, hmem']
  · intro db sess u m mid rp hu hm hne hc
    by_cases hmem : (u.id, mid) ∈ db.likes
    · have h1 : like_message db sess true mid rp =
          { db := db, sess := sess, flashes := [], errors := [],
            resp := .redirectTo (rp.getD ("/messages/" ++ toString mid)) } := by
        simp [like_message, hu, hm, hne, hmem]
      rw [h1]
      refine ⟨?_, h1⟩
      show db.likes.count (u.id, mid) = 1
      have hpos : 0 < db.likes.count (u.id, mid) := List.count_pos_iff.mpr hmem
      omega
    · have h1 : like_message db sess true mid rp =
          { db := { db with likes := db.likes ++ [(u.id, mid)] }, sess := sess,
            flashes := [], errors := [],
            resp := .redirectTo (rp.getD ("/messages/" ++ toString mid)) } := by
        simp [like_message, hu, hm, hne, hmem]
      rw [h1]
      constructor
      · show (db.likes ++ [(u.id, mid)]).count (u.id, mid) = 1
        have hz : db.likes.count (u.id, mid) = 0 := List.count_eq_zero.mpr hmem
        simp [List.count_append, hz]
      · have hu' : gUser { db with likes := db.likes ++ [(u.id, mid)] } sess =
            some u := hu
        have hm' : findMsg { db with likes := db.likes ++ [(u.id, mid)] } mid =
            some m := hm
        have hmem' : (u.id, mid) ∈
            ({ db with likes := db.likes ++ [(u.id, mid)] }).likes := by simp
        simp [like_message, hu', hm', hne, hmem']
  · intro db sess u v fid hu hv hmem
    simp [stop_following, hu, hv, hmem]
  · intro db sess u m mid rp hu hm hmem
    simp [unlike_message, hu, hm, hmem]

/-- Witness for C4 at a concrete database: `exU1` follows and likes
targets they have no edge to, and removes edges that do not exist. -/
theorem C4_idempotent_edges_witness :
    ((start_following exDB2 (some 1) true 2).db.follows.count (exU1.id, 2) = 1 ∧
      start_following (start_following exDB2 (some 1) true 2).db (some 1) true 2 =
        { db := (start_following exDB2 (some 1) true 2).db, sess := some 1,
          flashes := [], errors := [],
          resp := .redirectTo ("/users/" ++ toString exU1.id ++ "/following") }) ∧
    ((like_message exDB2 (some 1) true 3 none).db.likes.count (exU1.id, 3) = 1 ∧
      like_message (like_message exDB2 (some 1) true 3 none).db (some 1) true 3 none =
        { db := (like_message exDB2 (some 1) true 3 none).db, sess := some 1,
          flashes := [], errors := [],
          resp := .redirectTo ((none : Option String).getD
            ("/messages/" ++ toString (3 : Nat))) }) ∧
    (stop_following exDB2 (some 1) true 2 =
      { db := exDB2, sess := some 1, flashes := [], errors := [],
        resp := .redirectTo ("/users/" ++ toString exU1.id ++ "/following") }) ∧
    (unlike_message exDB2 (some 1) true 3 none =
      { db := exDB2, sess := some 1, flashes := [], errors := [],
        resp := .redirectTo ((none : Option String).getD
          ("/messages/" ++ toString (3 : Nat))) }) :=
  ⟨C4_idempotent_edges.1 exDB2 (some 1) exU1 exU2 2 rfl rfl (by decide) (by decide),
   C4_idempotent_edges.2.1 exDB2 (some 1) exU1 exM3 3 none rfl rfl (by decide) (by decide),
   C4_idempotent_edges.2.2.1 exDB2 (some 1) exU1 exU2 2 rfl rfl (by decide),
   C4_idempotent_edges.2.2.2 exDB2 (some 1) exU1 exM3 3 none rfl rfl (by decide)⟩

theorem goodDB_filter_messages (db : DB) (p : Msg → Bool) (h : GoodDB db) :
    GoodDB { db with messages := db.messages.filter p } := by
  obtain ⟨⟨h1, h2, h3⟩, h4⟩ := h
  refine ⟨⟨?_, h2, ?_⟩, ?_⟩
  · intro m hm
    exact h1 m (List.mem_of_mem_filter hm)
  · exact List.Nodup.sublist ((List.filter_sublist db.messages).map Msg.id) h3
  · intro pr hpr m hm hid
    exact h4 pr hpr m (List.mem_of_mem_filter hm) hid

theorem goodDB_add_message (db : DB) (uid : Nat) (text : String) (now : Nat)
    (h : GoodDB db) :
    GoodDB { db with
      messages := db.messages ++
        [{ id := db.next_message_id, text := text, timestamp := now, user_id := uid }],
      next_message_id := db.next_message_id + 1 } := by
  obtain ⟨⟨h1, h2, h3⟩, h4⟩ := h
  refine ⟨⟨?_, ?_, ?_⟩, ?_⟩
  · intro m hm
    rcases List.mem_append.mp hm with hm | hm
    · exact Nat.lt_succ_of_lt (h1 m hm)
    · rcases List.mem_singleton.mp hm with rfl
      exact Nat.lt_succ_self _
  · intro p hp
    exact Nat.lt_succ_of_lt (h2 p hp)
  · rw [List.map_append]
    refine List.nodup_append.mpr ⟨h3, List.nodup_singleton _, ?_⟩
    intro a ha hb
    rcases List.mem_map.mp ha with ⟨m, hm, rfl⟩
    have hlt := h1 m hm
    have heq : m.id = db.next_message_id := by simpa using hb
    omega
  · intro p hp m hm hid
    rcases List.mem_append.mp hm with hm | hm
    · exact h4 p hp m hm hid
    · rcases List.mem_singleton.mp hm with rfl
      have hid' : db.next_message_id = p.2 := hid
      have hp2 := h2 p hp
      intro _
      omega

theorem goodDB_like (db : DB) (u : DBUser) (mid : Nat) (m : Msg)
    (hm : findMsg db mid = some m) (hne : ¬ u.id = m.user_id) (h : GoodDB db) :
    GoodDB { db with likes := db.likes ++ [(u.id, mid)] } := by
  obtain ⟨⟨h1, h2, h3⟩, h4⟩ := h
  have hm' : db.messages.find? (fun x => x.id = mid) = some m := hm
  have hmem : m ∈ db.messages := List.mem_of_find?_eq_some hm'
  have hfp := List.find?_some hm'
  have hid : m.id = mid := of_decide_eq_true hfp
  refine ⟨⟨h1, ?_, h3⟩, ?_⟩
  · intro p hp
    rcases List.mem_append.mp hp with hp | hp
    · exact h2 p hp
    · rcases List.mem_singleton.mp hp with rfl
      show mid < db.next_message_id
      have := h1 m hmem
      omega
  · intro p hp m' hm'mem hidm
    rcases List.mem_append.mp hp with hp | hp
    · exact h4 p hp m' hm'mem hidm
    · rcases List.mem_singleton.mp hp with rfl
      have hidm' : m'.id = mid := hidm
      have heqm : m' = m :=
        List.inj_on_of_nodup_map h3 hm'mem hmem (by rw [hidm', hid])
      subst heqm
      intro hcontra
      exact hne (by rw [hcontra])

theorem goodDB_erase_like (db : DB) (pr : Nat × Nat) (h : GoodDB db) :
    GoodDB { db with likes := db.likes.erase pr } := by
  obtain ⟨⟨h1, h2, h3⟩, h4⟩ := h
  refine ⟨⟨h1, ?_, h3⟩, ?_⟩
  · intro p hp
    exact h2 p (List.mem_of_mem_erase hp)
  · intro p hp m hm hid
    exact h4 p (List.mem_of_mem_erase hp) m hm hid

theorem signupCommit_goodDB (db : DB) (un pw em iu : String) (db' : DB) (u : DBUser)
    (hc : signupCommit db un pw em iu = .ok (db', u)) (h : GoodDB db) : GoodDB db' := by
  unfold signupCommit at hc
  by_cases hd : (db.users.any fun x => x.username = un || x.email = em) = true
  · rw [if_pos hd] at hc
    exact absurd hc (by simp)
  · rw [if_neg hd] at hc
    simp only [Except.ok.injEq, Prod.mk.injEq] at hc
    obtain ⟨h1, _⟩ := hc
    rw [← h1]
    exact h

theorem signup_goodDB (db : DB) (sess : Option Nat) (c f : Bool) (form : SignupForm)
    (h : GoodDB db) : GoodDB (signup db sess c f form).db := by
  unfold signup
  by_cases hv : validate_on_submit c f = true
  · rw [if_pos hv]
    cases hc : signupCommit db form.username form.password form.email
        (if form.image_url = "" then DEFAULT_IMAGE_URL else form.image_url) with
    | error e => exact h
    | ok pr =>
      obtain ⟨db', u⟩ := pr
      exact signupCommit_goodDB db _ _ _ _ db' u hc h
  · rw [if_neg hv]
    exact h

theorem like_message_goodDB (db : DB) (sess : Option Nat) (c : Bool) (mid : Nat)
    (rp : Option String) (h : GoodDB db) : GoodDB (like_message db sess c mid rp).db := by
  unfold like_message
  split
  · exact h
  · rename_i u hu
    split
    · exact h
    · split
      · exact h
      · rename_i m hm
        split
        · exact h
        · rename_i hown
          split
          · exact h
          · exact goodDB_like db u mid m hm hown h

theorem unlike_message_goodDB (db : DB) (sess : Option Nat) (c : Bool) (mid : Nat)
    (rp : Option String) (h : GoodDB db) : GoodDB (unlike_message db sess c mid rp).db := by
  unfold unlike_message
  split
  · exact h
  · rename_i u hu
    split
    · exact h
    · split
      · exact h
      · rename_i m hm
        split
        · exact goodDB_erase_like db (u.id, mid) h
        · exact h

theorem initDB_goodDB : GoodDB initDB := by
  refine ⟨⟨?_, ?_, ?_⟩, ?_⟩
  · intro m hm
    simp [initDB] at hm
  · intro p hp
    simp [initDB] at hp
  · simp [initDB]
  · intro p hp
    simp [initDB] at hp

theorem step_goodDB (db : DB) (r : Request) (h : GoodDB db) : GoodDB (step db r) := by
  cases r with
  | signupReq sess c f form => exact signup_goodDB db sess c f form h
  | loginReq sess c f un pw =>
    show GoodDB (login db sess c f un pw).db
    unfold login
    repeat' split
    all_goals exact h
  | logoutReq sess c =>
    show GoodDB (logout db sess c).db
    unfold logout
    repeat' split
    all_goals exact h
  | listUsersReq sess q =>
    show GoodDB (list_users db sess q).db
    unfold list_users
    repeat' split
    all_goals exact h
  | showUserReq sess uid =>
    show GoodDB (show_user db sess uid).db
    unfold show_user
    repeat' split
    all_goals exact h
  | showFollowingReq sess uid =>
    show GoodDB (show_following db sess uid).db
    unfold show_following
    repeat' split
    all_goals exact h
  | showFollowersReq sess uid =>
    show GoodDB (show_followers db sess uid).db
    unfold show_followers
    repeat' split
    all_goals exact h
  | showLikedReq sess uid =>
    show GoodDB (show_liked_messages db sess uid).db
    unfold show_liked_messages
    repeat' split
    all_goals exact h
  | followReq sess c fid =>
    show GoodDB (start_following db sess c fid).db
    unfold start_following
    repeat' split
    all_goals exact h
  | stopFollowReq sess c fid =>
    show GoodDB (stop_following db sess c fid).db
    unfold stop_following
    repeat' split
    all_goals exact h
  | profileReq sess c f form =>
    show GoodDB (update_profile db sess c f form).db
    simp only [update_profile]
    repeat' split
    all_goals exact h
  | deleteUserReq sess c =>
    show GoodDB (delete_user db sess c).db
    unfold delete_user
    repeat' split
    all_goals first
      | exact h
      | exact goodDB_filter_messages db _ h
  | addMessageReq sess c f text now =>
    show GoodDB (add_message db sess c f text now).db
    unfold add_message
    repeat' split
    all_goals first
      | exact h
      | exact goodDB_add_message db _ text now h
  | showMessageReq sess mid =>
    show GoodDB (show_message db sess mid).db
    unfold show_message
    repeat' split
    all_goals exact h
  | deleteMessageReq sess c mid =>
    show GoodDB (delete_message db sess c mid).db
    unfold delete_message
    repeat' split
    all_goals first
      | exact h
      | exact goodDB_filter_messages db _ h
  | likeReq sess c mid rp => exact like_message_goodDB db sess c mid rp h
  | unlikeReq sess c mid rp => exact unlike_message_goodDB db sess c mid rp h

theorem exec_goodDB (reqs : List Request) (db : DB) (h : GoodDB db) :
    GoodDB (exec db reqs) := by
  induction reqs generalizing db with
  | nil => exact h
  | cons r rs ih => exact ih (step db r) (step_goodDB db r h)

/-- C5: in every database reachable from the empty one through the request
handlers, no Like edge's holder owns the liked message; and a like request
by the message's owner is rejected with a flash, creates no Like edge and
leaves the whole database (hence the message's like count) unchanged. -/
theorem C5_no_self_like :
    (∀ reqs : List Request, NoSelfLike (exec initDB reqs)) ∧
    (∀ (db : DB) (sess : Option Nat) (u : DBUser) (m : Msg) (mid : Nat)
        (rp : Option String),
      gUser db sess = some u → findMsg db mid = some m → m.user_id = u.id →
      like_message db sess true mid rp =
        { db := db, sess := sess, flashes := ["You cannot like your own Warble!"],
          errors := [],
          resp := .redirectTo (rp.getD ("/messages/" ++ toString mid)) }) := by
  constructor
  · intro reqs
    exact (exec_goodDB reqs initDB initDB_goodDB).2
  · intro db sess u m mid rp hu hm hown
    simp [like_message, hu, hm, hown]

/-- Witness for C5: a concrete request trace, and the owner of `exM1`
attempting to like it. -/
theorem C5_no_self_like_witness :
    NoSelfLike (exec initDB [Request.signupReq none true true exForm3]) ∧
    like_message exDB1 (some 1) true 1 (some "/home") =
      { db := exDB1, sess := some 1, flashes := ["You cannot like your own Warble!"],
        errors := [],
        resp := .redirectTo ((some "/home").getD ("/messages/" ++ toString (1 : Nat))) } :=
  ⟨C5_no_self_like.1 [Request.signupReq none true true exForm3],
   C5_no_self_like.2 exDB1 (some 1) exU1 exM1 1 (some "/home") rfl rfl rfl⟩

/-- C6: self-service account deletion removes the user row and all the
user's messages in one handler step, clears the session, and redirects to
/signup; afterwards fetching any of the deleted user's messages yields
NotFound for every authenticated viewer. -/
theorem C6_delete_user_cascades :
    ∀ (db : DB) (sess : Option Nat) (u : DBUser),
      gUser db sess = some u → (db.messages.map Msg.id).Nodup →
      (delete_user db sess true).db.messages =
          db.messages.filter (fun m => m.user_id ≠ u.id) ∧
      (delete_user db sess true).db.users =
          db.users.filter (fun o => o.id ≠ u.id) ∧
      (delete_user db sess true).sess = none ∧
      (delete_user db sess true).resp = Resp.redirectTo "/signup" ∧
      (∀ m ∈ (delete_user db sess true).db.messages, m.user_id ≠ u.id) ∧
      (∀ (mid : Nat) (m : Msg), findMsg db mid = some m → m.user_id = u.id →
        ∀ (sess2 : Option Nat) (u2 : DBUser),
          gUser (delete_user db sess true).db sess2 = some u2 →
          (show_message (delete_user db sess true).db sess2 mid).resp =
            Resp.notFound) := by
  intro db sess u hu hnd
  have h1 : delete_user db sess true =
      { db := { db with
          messages := db.messages.filter (fun m => m.user_id ≠ u.id),
          users := db.users.filter (fun o => o.id ≠ u.id) },
        sess := none, flashes := ["Deleted " ++ u.username ++ "!"], errors := [],
        resp := .redirectTo "/signup" } := by
    simp [delete_user, hu]
  rw [h1]
  refine ⟨rfl, rfl, rfl, rfl, ?_, ?_⟩
  · intro m hm
    have := List.mem_filter.mp hm
    simpa using this.2
  · intro mid m hfind hown sess2 u2 hu2
    have hfind' : db.messages.find? (fun x => x.id = mid) = some m := hfind
    have hmmem : m ∈ db.messages := List.mem_of_find?_eq_some hfind'
    have hfp := List.find?_some hfind'
    have hmid : m.id = mid := of_decide_eq_true hfp
    have hnone : findMsg { db with
        messages := db.messages.filter (fun m => m.user_id ≠ u.id),
        users := db.users.filter (fun o => o.id ≠ u.id) } mid = none := by
      rw [findMsg]
      refine List.find?_eq_none.mpr ?_
      intro x hx hpx
      have hx' := List.mem_filter.mp hx
      have hxid : x.id = mid := of_decide_eq_true hpx
      have hxeq : x = m :=
        List.inj_on_of_nodup_map hnd hx'.1 hmmem (by rw [hxid, hmid])
      have hxu : x.user_id ≠ u.id := by simpa using hx'.2
      rw [hxeq, hown] at hxu
      exact hxu rfl
    have hu2' : gUser { db with
        messages := db.messages.filter (fun m => m.user_id ≠ u.id),
        users := db.users.filter (fun o => o.id ≠ u.id) } sess2 = some u2 := hu2
    show (show_message { db with
        messages := db.messages.filter (fun m => m.user_id ≠ u.id),
        users := db.users.filter (fun o => o.id ≠ u.id) } sess2 mid).resp =
      Resp.notFound
    unfold show_message
    rw [hu2', hnone]

/-- Witness for C6: `exU2` deletes their account; their message `exM3` is
gone and fetching it as `exU1` yields NotFound. -/
theorem C6_delete_user_cascades_witness :
    (delete_user exDB2 (some 2) true).db.messages =
        exDB2.messages.filter (fun m => m.user_id ≠ exU2.id) ∧
    (show_message (delete_user exDB2 (some 2) true).db (some 1) 3).resp =
      Resp.notFound :=
  ⟨(C6_delete_user_cascades exDB2 (some 2) exU2 rfl (by decide)).1,
   (C6_delete_user_cascades exDB2 (some 2) exU2 rfl (by decide)).2.2.2.2.2
      3 exM3 rfl rfl (some 1) exU1 rfl⟩

/-- Edit form whose new username and email both collide with `exU2`,
carrying `exU1`'s correct current password. -/
def exForm7 : EditForm :=
  { username := "bob", email := "bob@mail", image_url := "", header_image_url := "",
    location := "", bio := "", password := "pw" }

/-- Edit form carrying a wrong current password. -/
def exForm7b : EditForm :=
  { username := "alice2", email := "alice2@mail", image_url := "",
    header_image_url := "", location := "", bio := "", password := "bad" }

/-- C7: a profile update with a wrong current password is terminal with a
password field error and no mutation; a collision of the changed username
or email with another user is terminal with the colliding field error(s)
and no mutation, and when both collide both errors are reported. -/
theorem C7_update_profile_errors :
    ∀ (db : DB) (sess : Option Nat) (gu : DBUser) (form : EditForm),
      gUser db sess = some gu →
      ((authenticate db gu.username form.password = none →
        update_profile db sess true true form =
          { db := db, sess := sess, flashes := [],
            errors := [("password", "Incorrect password.")],
            resp := .render "/users/edit.html" }) ∧
      (∀ user : DBUser, authenticate db gu.username form.password = some user →
        (((user.username != form.username) &&
            db.users.any (fun o => o.username = form.username)) ||
          ((user.email != form.email) &&
            db.users.any (fun o => o.email = form.email))) = true →
        update_profile db sess true true form =
          { db := db, sess := sess, flashes := [],
            errors :=
              (if ((user.username != form.username) &&
                    db.users.any (fun o => o.username = form.username)) = true
                then [("username", "Username already taken!")] else []) ++
              (if ((user.email != form.email) &&
                    db.users.any (fun o => o.email = form.email)) = true
                then [("email", "Email already taken!")] else []),
            resp := .render "/users/edit.html" }) ∧
      (∀ user : DBUser, authenticate db gu.username form.password = some user →
        ((user.username != form.username) &&
            db.users.any (fun o => o.username = form.username)) = true →
        ((user.email != form.email) &&
            db.users.any (fun o => o.email = form.email)) = true →
        (update_profile db sess true true form).errors =
          [("username", "Username already taken!"),
            ("email", "Email already taken!")])) := by
  intro db sess gu form hg
  have hpart2 : ∀ user : DBUser,
      authenticate db gu.username form.password = some user →
      (((user.username != form.username) &&
          db.users.any (fun o => o.username = form.username)) ||
        ((user.email != form.email) &&
          db.users.any (fun o => o.email = form.email))) = true →
      update_profile db sess true true form =
        { db := db, sess := sess, flashes := [],
          errors :=
            (if ((user.username != form.username) &&
                  db.users.any (fun o => o.username = form.username)) = true
              then [("username", "Username already taken!")] else []) ++
            (if ((user.email != form.email) &&
                  db.users.any (fun o => o.email = form.email)) = true
              then [("email", "Email already taken!")] else []),
          resp := .render "/users/edit.html" } := by
    intro user hauth hcoll
    simp only [update_profile, hg, hauth, validate_on_submit, Bool.and_self,
      if_true]
    rw [if_pos hcoll]
  refine ⟨?_, hpart2, ?_⟩
  · intro hauth
    simp [update_profile, validate_on_submit, hg, hauth]
  · intro user hauth huc hec
    have hcoll : (((user.username != form.username) &&
        db.users.any (fun o => o.username = form.username)) ||
      ((user.email != form.email) &&
        db.users.any (fun o => o.email = form.email))) = true := by
      simp [huc]
    rw [hpart2 user hauth hcoll]
    simp [huc, hec]

/-- Witness for C7: wrong password, and a double collision with `exU2`. -/
theorem C7_update_profile_errors_witness :
    (update_profile exDB2 (some 1) true true exForm7b).errors =
        [("password", "Incorrect password.")] ∧
    (update_profile exDB2 (some 1) true true exForm7).errors =
      [("username", "Username already taken!"),
        ("email", "Email already taken!")] := by
  constructor
  · have h := (C7_update_profile_errors exDB2 (some 1) exU1 exForm7b rfl).1 (by decide)
    rw [h]
  · exact (C7_update_profile_errors exDB2 (some 1) exU1 exForm7 rfl).2.2 exU1
      (by decide) (by decide) (by decide)

/-- C8: with no authenticated principal, POST /messages/new fails with
Unauthorized and creates no row, while reads of the semi-public pages
(user list, user profile, message view) answer with a redirect home
carrying the "Access unauthorized." notice instead of a hard error. -/
theorem C8_unauthenticated_requests :
    ∀ (db : DB) (sess : Option Nat), gUser db sess = none →
      ∀ (c f : Bool) (text : String) (now : Nat) (q : Option String)
        (uid mid : Nat),
      add_message db sess c f text now =
        { db := db, sess := sess, flashes := [], errors := [],
          resp := .unauthorized } ∧
      list_users db sess q =
        { db := db, sess := sess, flashes := ["Access unauthorized."],
          errors := [], resp := .redirectTo "/" } ∧
      show_user db sess uid =
        { db := db, sess := sess, flashes := ["Access unauthorized."],
          errors := [], resp := .redirectTo "/" } ∧
      show_message db sess mid =
        { db := db, sess := sess, flashes := ["Access unauthorized."],
          errors := [], resp := .redirectTo "/" } := by
  intro db sess h c f text now q uid mid
  refine ⟨?_, ?_, ?_, ?_⟩ <;>
    simp [add_message, list_users, show_user, show_message, h]

/-- Witness for C8: anonymous client against `exDB1`. -/
theorem C8_unauthenticated_requests_witness :
    add_message exDB1 none true true "hi" 9 =
      { db := exDB1, sess := none, flashes := [], errors := [],
        resp := .unauthorized } ∧
    show_user exDB1 none 1 =
      { db := exDB1, sess := none, flashes := ["Access unauthorized."],
        errors := [], resp := .redirectTo "/" } :=
  ⟨(C8_unauthenticated_requests exDB1 none rfl true true "hi" 9 none 1 1).1,
   (C8_unauthenticated_requests exDB1 none rfl true true "hi" 9 none 1 1).2.2.1⟩

/-- C9 (amended): with an absent or mismatched anti-forgery token, the
endpoints guarded by the CSRF-only form (logout, follow, stop-follow,
account delete, message delete, like, unlike) respond Unauthorized, while
the form-validating endpoints (signup, login, message create, profile
edit) re-render their form instead (message create and profile edit raise
Unauthorized when additionally unauthenticated); in every case the
database is unchanged. -/
theorem C9_csrf_rejection :
    ∀ (db : DB) (sess : Option Nat),
      (∀ fid : Nat, (start_following db sess false fid).db = db ∧
        (start_following db sess false fid).resp = .unauthorized) ∧
      (∀ fid : Nat, (stop_following db sess false fid).db = db ∧
        (stop_following db sess false fid).resp = .unauthorized) ∧
      ((logout db sess false).db = db ∧
        (logout db sess false).resp = .unauthorized) ∧
      ((delete_user db sess false).db = db ∧
        (delete_user db sess false).resp = .unauthorized) ∧
      (∀ mid : Nat, (delete_message db sess false mid).db = db ∧
        (delete_message db sess false mid).resp = .unauthorized) ∧
      (∀ (mid : Nat) (rp : Option String),
        (like_message db sess false mid rp).db = db ∧
        (like_message db sess false mid rp).resp = .unauthorized) ∧
      (∀ (mid : Nat) (rp : Option String),
        (unlike_message db sess false mid rp).db = db ∧
        (unlike_message db sess false mid rp).resp = .unauthorized) ∧
      (∀ (f : Bool) (form : SignupForm), signup db sess false f form =
        { db := db, sess := none, flashes := [], errors := [],
          resp := .render "users/signup.html" }) ∧
      (∀ (f : Bool) (un pw : String), login db sess false f un pw =
        { db := db, sess := sess, flashes := [], errors := [],
          resp := .render "users/login.html" }) ∧
      (∀ (f : Bool) (text : String) (now : Nat),
        (add_message db sess false f text now).db = db ∧
        ((add_message db sess false f text now).resp = .unauthorized ∨
          (add_message db sess false f text now).resp =
            .render "messages/create.html")) ∧
      (∀ (f : Bool) (form : EditForm),
        (update_profile db sess false f form).db = db ∧
        ((update_profile db sess false f form).resp = .unauthorized ∨
          (update_profile db sess false f form).resp =
            .render "/users/edit.html")) := by
  intro db sess
  refine ⟨?_, ?_, ?_, ?_, ?_, ?_, ?_, ?_, ?_, ?_, ?_⟩
  · intro fid
    cases h : gUser db sess <;> simp [start_following, h]
  · intro fid
    cases h : gUser db sess <;> simp [stop_following, h]
  · cases h : gUser db sess <;> simp [logout, h]
  · cases h : gUser db sess <;> simp [delete_user, h]
  · intro mid
    cases h : gUser db sess <;> simp [delete_message, h]
  · intro mid rp
    cases h : gUser db sess <;> simp [like_message, h]
  · intro mid rp
    cases h : gUser db sess <;> simp [unlike_message, h]
  · intro f form
    simp [signup, validate_on_submit]
  · intro f un pw
    simp [login, validate_on_submit]
  · intro f text now
    cases h : gUser db sess <;> simp [add_message, validate_on_submit, h]
  · intro f form
    cases h : gUser db sess <;> simp [update_profile, validate_on_submit, h]

/-- Valid new-user form used for the C9 counterexample. -/
def exForm9 : SignupForm :=
  { username := "carol", password := "pw9", email := "carol@mail", image_url := "" }

/-- Counterexample to C9 as stated: a POST /signup whose anti-forgery token
is invalid re-renders the form (HTTP 200) instead of yielding Unauthorized. -/
theorem C9_counterexample :
    (signup exDB1 (some 1) false true exForm9).resp = Resp.render "users/signup.html" ∧
    (signup exDB1 (some 1) false true exForm9).resp ≠ Resp.unauthorized := by
  decide

/-- C10: every /signup request clears the session first: unless the signup
itself succeeds (redirecting home, logged in as the fresh user), the
resulting session is empty — including a plain GET and a failed POST from
a logged-in user. -/
theorem C10_signup_clears_session :
    ∀ (db : DB) (sess : Option Nat) (c f : Bool) (form : SignupForm),
      (signup db sess c f form).resp = Resp.redirectTo "/" ∨
      (signup db sess c f form).sess = none := by
  intro db sess c f form
  unfold signup
  by_cases hv : validate_on_submit c f = true
  · rw [if_pos hv]
    cases hc : signupCommit db form.username form.password form.email
        (if form.image_url = "" then DEFAULT_IMAGE_URL else form.image_url) with
    | error e => right; rfl
    | ok pr =>
      obtain ⟨db', u⟩ := pr
      left; rfl
  · rw [if_neg hv]
    right; rfl

end Warbler
